import Mathlib

/-!
Verification of the Slack webhook conversational-turn pipeline (src/main.py).

The embedding models, faithfully to the source:
- the mention-stripping step `re.sub("<@[a-zA-Z0-9]{11}>", "", text)`
  (Python `re.sub` scans left to right over the original string, removing
  non-overlapping matches; it does not rescan the produced string);
- `save_conversation`, which writes a two-entry history document via
  `doc_ref.set` (full replacement), calling `datetime.datetime.now()` once
  per entry (modelled by an explicit clock `Nat → Nat` and a call counter);
- `handle_app_mention_events`, the Turn Handler, producing a trace of
  external effects (agent call, store write, reply send); the agent call and
  the database write are parametrised so that their failures can be studied;
- `slack_bot`, the HTTP entry point, with its three branches in source
  order: url_verification echo, retry-header short circuit, dispatch to the
  bolt handler.
-/

/-- ASCII alphanumeric, the character class `[a-zA-Z0-9]` of the regex. -/
def isAlnum (c : Char) : Bool := c.isAlpha || c.isDigit

/-- Attempt to match the regex `<@[a-zA-Z0-9]{11}>` at the head of `l`.
On success, return the remainder of the list after the match. -/
def mentionSplit (l : List Char) : Option (List Char) :=
  match l with
  | '<' :: '@' :: rest =>
    if (rest.take 11).length = 11 && (rest.take 11).all isAlnum then
      match rest.drop 11 with
      | '>' :: rest2 => some rest2
      | _ => none
    else none
  | _ => none

/-- Left-to-right scan of Python `re.sub(pattern, "", text)`: at each
position, if the pattern matches, drop the match and continue after it;
otherwise keep the character and advance one.  Fuel-indexed for structural
recursion; `fuel ≥ l.length` makes the fuel irrelevant since every step
consumes at least one character. -/
def subMentionsAux : Nat → List Char → List Char
  | 0, l => l
  | _ + 1, [] => []
  | fuel + 1, c :: rest =>
    match mentionSplit (c :: rest) with
    | some rest2 => subMentionsAux fuel rest2
    | none => c :: subMentionsAux fuel rest

/-- `re.sub("<@[a-zA-Z0-9]{11}>", "", ·)` on a character list. -/
def subMentions (l : List Char) : List Char := subMentionsAux l.length l

/-- The mention-stripping step of `handle_app_mention_events` (line 106):
`only_text = re.sub("<@[a-zA-Z0-9]{11}>", "", text)`. -/
def stripMentions (s : String) : String := ⟨subMentions s.data⟩

/-- Whether some position of `l` starts a substring matching the
mention-token pattern `<@[a-zA-Z0-9]{11}>`. -/
def hasMentionToken : List Char → Bool
  | [] => false
  | c :: rest => (mentionSplit (c :: rest)).isSome || hasMentionToken rest

/-- One entry of the `history` list written by `save_conversation`. -/
structure HistEntry where
  input : String
  response : String
  timestamp : Nat
deriving DecidableEq, Repr

/-- The document written by `save_conversation`. -/
structure Doc where
  history : List HistEntry
deriving DecidableEq, Repr

/-- The Firestore `testChat` collection: one optional document per user id. -/
def Store : Type := String → Option Doc

/-- The `history` value built by `save_conversation`: two entries, each with
its own `datetime.datetime.now()` call (`clock i` and `clock (i+1)` for a
clock read counter `i`). -/
def mkHistory (uin bout : String) (clock : Nat → Nat) (i : Nat) : List HistEntry :=
  [⟨uin, bout, clock i⟩, ⟨uin, bout, clock (i + 1)⟩]

/-- `save_conversation(user, user_input, bot_output)` (lines 64-89):
`db.collection("testChat").document(user).set({"history": [...]})`.
`set` without a merge option replaces the whole document for `user`;
documents of other users are untouched.  `clock`/`i` model the two
`datetime.datetime.now()` calls. -/
def save_conversation (db : Store) (clock : Nat → Nat) (i : Nat)
    (user user_input bot_output : String) : Store :=
  fun u => if u = user then some ⟨mkHistory user_input bot_output clock i⟩ else db u

/-- Error taxonomy of the pipeline (§7 of the spec): `malformedEvent` models
the `BoxKeyError` raised by `box.event.user` / `box.event.text` on a missing
field, `keyError` the `KeyError` of `body["challenge"]`, and the remaining
two the uncaught failures of the agent backend and the Firestore write. -/
inductive Err where
  | malformedEvent
  | keyError
  | agentInvocation
  | storeWrite
deriving DecidableEq, Repr

/-- Observable external effects of one turn, in execution order. -/
inductive Effect where
  | agentRun (input : String)
  | storeWrite (user input output : String)
  | say (msg : String)
deriving DecidableEq, Repr

/-- The nested `event` object of a Slack event callback body. -/
structure SlackEvent where
  etype : Option String
  user : Option String
  text : Option String
deriving DecidableEq, Repr

/-- The JSON request body, restricted to the keys the code reads. -/
structure Body where
  type_ : Option String
  challenge : Option String
  event : Option SlackEvent
deriving DecidableEq, Repr

/-- An inbound HTTP request: the (case-insensitively looked up) value of the
`x-slack-retry-num` header, `none` when the header is absent, and the JSON
body. -/
structure SlackRequest where
  retryNum : Option String
  body : Body
deriving DecidableEq, Repr

/-- Python truthiness of `header.get("x-slack-retry-num")`: `None` and the
empty string are falsy, every other string is truthy. -/
def truthyStr : Option String → Bool
  | none => false
  | some s => !(s == "")

/-- `handle_app_mention_events(body, say)` (lines 93-118), the Turn Handler.
`agent` is the external `agent.run` call (its result or its failure), `dbOk`
whether the Firestore write succeeds.  Returns the trace of external effects
performed, and the uncaught exception if one was raised.  Mirrors the source
order: extract `event.user`, extract `event.text`, strip mentions, run the
agent, save the conversation, send the reply. -/
def handle_app_mention_events (agent : String → Except Err String) (dbOk : Bool)
    (body : Body) : List Effect × Option Err :=
  match body.event with
  | none => ([], some .malformedEvent)
  | some ev =>
    match ev.user with
    | none => ([], some .malformedEvent)
    | some user =>
      match ev.text with
      | none => ([], some .malformedEvent)
      | some text =>
        let only_text := stripMentions text
        match agent only_text with
        | .error e => ([.agentRun only_text], some e)
        | .ok openai_response =>
          if dbOk then
            ([.agentRun only_text,
              .storeWrite user only_text openai_response,
              .say openai_response], none)
          else
            ([.agentRun only_text], some .storeWrite)

/-- `json.dumps({"challenge": c})` with Python's default separators. -/
def challengeRes (c : String) : String :=
  "\x7b\"challenge\": \"" ++ c ++ "\"\x7d"

/-- `json.dumps({"message": "No need to resend"})`. -/
def noResendBody : String :=
  "\x7b\"message\": \"No need to resend\"\x7d"

/-- The value returned by `slack_bot` to the hosting framework:
a `(body, status, headers)` tuple, a plain dict (which Flask serialises as a
JSON body with HTTP status 200), or the response of `handler.handle`. -/
inductive PyResponse where
  | tuple (body : String) (status : Nat) (contentType : String)
  | jsonDict (statusCode : Nat) (body : String)
  | handled (status : Nat)
deriving DecidableEq, Repr

/-- The HTTP status the hosting framework sends for each return shape:
a tuple carries its own status; a returned dict becomes a JSON response with
status 200. -/
def httpStatus : PyResponse → Nat
  | .tuple _ s _ => s
  | .jsonDict _ _ => 200
  | .handled s => s

/-- `handler.handle(request)`: the slack-bolt adapter dispatches the body to
the handler registered for `message` events (`handle_app_mention_events`)
and acknowledges everything else; an exception raised inside the handler
propagates. -/
def handler_handle (agent : String → Except Err String) (dbOk : Bool)
    (body : Body) : Except Err (PyResponse × List Effect) :=
  match body.event with
  | some ev =>
    if ev.etype = some "message" then
      match handle_app_mention_events agent dbOk body with
      | (_, some e) => .error e
      | (tr, none) => .ok (.handled 200, tr)
    else .ok (.handled 200, [])
  | none => .ok (.handled 200, [])

/-- `slack_bot(request)` (lines 124-152), the Delivery Controller, in source
order: the url_verification echo (`body["challenge"]` raising `KeyError`
when the key is absent), the `x-slack-retry-num` short circuit, and the
dispatch to `handler.handle`. -/
def slack_bot (agent : String → Except Err String) (dbOk : Bool)
    (req : SlackRequest) : Except Err (PyResponse × List Effect) :=
  if req.body.type_ = some "url_verification" then
    match req.body.challenge with
    | none => .error .keyError
    | some c =>
      .ok (.tuple (challengeRes c) 200 "application/json", [])
  else if truthyStr req.retryNum then
    .ok (.jsonDict 200 noResendBody, [])
  else
    handler_handle agent dbOk req.body

/-! ## Helper lemmas about the mention-stripping scan -/

/-- A successful match at the head of `l` leaves a suffix of `l`, hence a
sublist of `l`. -/
theorem mentionSplit_sublist {l r : List Char} (h : mentionSplit l = some r) :
    r.Sublist l := by
  unfold mentionSplit at h
  split at h
  · split at h
    · split at h
      · cases h
        rename_i heq
        refine List.Sublist.cons _ (List.Sublist.cons _
          (List.Sublist.trans ?_ (List.drop_sublist 11 _)))
        rw [heq]
        exact List.sublist_cons_self _ _
      · exact Option.noConfusion h
    · exact Option.noConfusion h
  · exact Option.noConfusion h

/-- The scan only removes characters: its output is a sublist of its input
(in particular every kept character stays in its original relative order). -/
theorem subMentionsAux_sublist : ∀ (fuel : Nat) (l : List Char),
    (subMentionsAux fuel l).Sublist l
  | 0, l => List.Sublist.refl l
  | _ + 1, [] => List.Sublist.refl []
  | fuel + 1, c :: rest => by
    unfold subMentionsAux
    split
    · rename_i rest2 heq
      exact (subMentionsAux_sublist fuel rest2).trans (mentionSplit_sublist heq)
    · exact (subMentionsAux_sublist fuel rest).cons₂ c

/-- On an input without any mention token the scan is the identity. -/
theorem subMentionsAux_no_token : ∀ (fuel : Nat) (l : List Char),
    hasMentionToken l = false → subMentionsAux fuel l = l
  | 0, _, _ => rfl
  | _ + 1, [], _ => rfl
  | fuel + 1, c :: rest, h => by
    have hsplit : mentionSplit (c :: rest) = none := by
      cases hm : mentionSplit (c :: rest) with
      | none => rfl
      | some r => simp [hasMentionToken, hm] at h
    have hrest : hasMentionToken rest = false := by
      simp [hasMentionToken, hsplit] at h
      exact h
    simp [subMentionsAux, hsplit, subMentionsAux_no_token fuel rest hrest]

/-! ## Claim theorems -/

/-- C1: a request with a truthy (present, non-empty) `x-slack-retry-num`
header whose body `type` is not `url_verification` is answered by the retry
short circuit: HTTP status 200, the returned dict carrying the JSON body
`\x7b"message": "No need to resend"\x7d`, and an empty effect trace — no
`agent.run` call and no `save_conversation` write. -/
theorem retry_header_short_circuit (agent : String → Except Err String)
    (dbOk : Bool) (req : SlackRequest)
    (h1 : truthyStr req.retryNum = true)
    (h2 : req.body.type_ ≠ some "url_verification") :
    slack_bot agent dbOk req = .ok (.jsonDict 200 noResendBody, []) ∧
    httpStatus (.jsonDict 200 noResendBody) = 200 := by
  refine ⟨?_, rfl⟩
  simp [slack_bot, h1, h2]

theorem retry_header_short_circuit_witness :
    truthyStr (some "1") = true ∧
    (Body.mk (some "event_callback") none none).type_ ≠ some "url_verification" ∧
    (slack_bot (fun _ => Except.ok "r") true
        ⟨some "1", ⟨some "event_callback", none, none⟩⟩ =
        .ok (.jsonDict 200 noResendBody, []) ∧
      httpStatus (.jsonDict 200 noResendBody) = 200) :=
  ⟨by decide, by decide,
    retry_header_short_circuit (fun _ => Except.ok "r") true
      ⟨some "1", ⟨some "event_callback", none, none⟩⟩ (by decide) (by decide)⟩

/-- C2: a body with `type == "url_verification"` and a `challenge` field is
answered first — before the retry-header check, so for every value of the
retry header — with the tuple `(json.dumps(\x7b"challenge": c\x7d), 200,
\x7b"Content-Type": "application/json"\x7d)` echoing the challenge, and no
side effects. -/
theorem url_verification_echo (agent : String → Except Err String)
    (dbOk : Bool) (req : SlackRequest) (c : String)
    (h1 : req.body.type_ = some "url_verification")
    (h2 : req.body.challenge = some c) :
    slack_bot agent dbOk req =
      .ok (.tuple (challengeRes c) 200 "application/json", []) := by
  simp [slack_bot, h1, h2]

theorem url_verification_echo_witness :
    (Body.mk (some "url_verification") (some "chal") none).type_ =
        some "url_verification" ∧
    (Body.mk (some "url_verification") (some "chal") none).challenge = some "chal" ∧
    slack_bot (fun _ => Except.ok "r") true
        ⟨some "1", ⟨some "url_verification", some "chal", none⟩⟩ =
      .ok (.tuple (challengeRes "chal") 200 "application/json", []) :=
  ⟨rfl, rfl,
    url_verification_echo (fun _ => Except.ok "r") true
      ⟨some "1", ⟨some "url_verification", some "chal", none⟩⟩ "chal" rfl rfl⟩

/-- C3 counterexample: the claim "the normalized text contains no substring
matching the mention-token pattern" fails on
`"<@AAAAA<@BBBBBBBBBBB>AAAAAA>"`: removing the inner token splices the
surrounding fragments into the new token `"<@AAAAAAAAAAA>"` (`re.sub` does
not rescan its output). -/
theorem mention_invariant_counterexample :
    ¬ (hasMentionToken
        (subMentions ("<@AAAAA<@BBBBBBBBBBB>AAAAAA>".data)) = false) := by
  decide

/-- C3 amended: the normalized text is a sublist of the raw text (every
character not inside a removed token is preserved in original relative
order), and a text without mention tokens is returned unchanged; the
no-token invariant on the *output* does not hold in general. -/
theorem mention_strip_order_preserved (s : String) :
    (stripMentions s).data.Sublist s.data ∧
    (hasMentionToken s.data = false → stripMentions s = s) := by
  constructor
  · exact subMentionsAux_sublist s.data.length s.data
  · intro h
    show String.mk (subMentions s.data) = s
    rw [subMentions, subMentionsAux_no_token _ _ h]

theorem mention_strip_order_preserved_witness :
    (stripMentions "ab cd").data.Sublist "ab cd".data ∧
    (hasMentionToken "ab cd".data = false → stripMentions "ab cd" = "ab cd") :=
  mention_strip_order_preserved "ab cd"

/-- C4: within one turn, the pipeline runs the agent call, the store write
and the reply send strictly in that order, and an exception at any step
aborts the remaining steps: a failing agent call leaves exactly the agent
invocation in the trace (no store write, no reply), and a failing store
write leaves no reply. -/
theorem turn_pipeline_order_and_abort (agent : String → Except Err String)
    (dbOk : Bool) (body : Body) (ev : SlackEvent) (u t : String)
    (h1 : body.event = some ev) (h2 : ev.user = some u) (h3 : ev.text = some t) :
    (∀ e, agent (stripMentions t) = .error e →
        handle_app_mention_events agent dbOk body =
          ([.agentRun (stripMentions t)], some e)) ∧
    (∀ r, agent (stripMentions t) = .ok r →
        (dbOk = true → handle_app_mention_events agent dbOk body =
            ([.agentRun (stripMentions t),
              .storeWrite u (stripMentions t) r, .say r], none)) ∧
        (dbOk = false → handle_app_mention_events agent dbOk body =
            ([.agentRun (stripMentions t)], some .storeWrite))) := by
  refine ⟨fun e he => ?_, fun r hr => ⟨fun hdb => ?_, fun hdb => ?_⟩⟩
  · simp [handle_app_mention_events, h1, h2, h3, he]
  · simp [handle_app_mention_events, h1, h2, h3, hr, hdb]
  · simp [handle_app_mention_events, h1, h2, h3, hr, hdb]

theorem turn_pipeline_order_and_abort_witness :
    (Body.mk (some "event_callback") none
        (some ⟨some "message", some "U1", some "hi"⟩)).event =
      some ⟨some "message", some "U1", some "hi"⟩ ∧
    (SlackEvent.mk (some "message") (some "U1") (some "hi")).user = some "U1" ∧
    (SlackEvent.mk (some "message") (some "U1") (some "hi")).text = some "hi" ∧
    ((∀ e, (Except.ok "r" : Except Err String) = .error e →
        handle_app_mention_events (fun _ => Except.ok "r") true
            ⟨some "event_callback", none, some ⟨some "message", some "U1", some "hi"⟩⟩ =
          ([.agentRun (stripMentions "hi")], some e)) ∧
     (∀ r, (Except.ok "r" : Except Err String) = .ok r →
        (true = true → handle_app_mention_events (fun _ => Except.ok "r") true
              ⟨some "event_callback", none, some ⟨some "message", some "U1", some "hi"⟩⟩ =
            ([.agentRun (stripMentions "hi"),
              .storeWrite "U1" (stripMentions "hi") r, .say r], none)) ∧
        (true = false → handle_app_mention_events (fun _ => Except.ok "r") true
              ⟨some "event_callback", none, some ⟨some "message", some "U1", some "hi"⟩⟩ =
            ([.agentRun (stripMentions "hi")], some .storeWrite)))) :=
  ⟨rfl, rfl, rfl,
    turn_pipeline_order_and_abort (fun _ => Except.ok "r") true
      ⟨some "event_callback", none, some ⟨some "message", some "U1", some "hi"⟩⟩
      ⟨some "message", some "U1", some "hi"⟩ "U1" "hi" rfl rfl rfl⟩

/-- C5 counterexample: the two history entries are built by two separate
`datetime.datetime.now()` calls, so they need not be identical: with a clock
that advances by one between reads, the written document's entries differ in
their timestamps. -/
theorem save_identical_entries_counterexample :
    (save_conversation (fun _ => none) (fun i => i) 0 "u" "a" "b") "u" =
      some ⟨[⟨"a", "b", 0⟩, ⟨"a", "b", 1⟩]⟩ ∧
    (⟨"a", "b", 0⟩ : HistEntry) ≠ ⟨"a", "b", 1⟩ := by
  constructor
  · simp [save_conversation, mkHistory]
  · decide

/-- C5 amended: every `save_conversation` write produces a `history` of
exactly two entries that are identical in `input` and `response`; their
timestamps come from two successive clock reads (`clock i` and
`clock (i+1)`) and coincide only when those reads return the same value. -/
theorem save_history_two_entries_shape (db : Store) (clock : Nat → Nat)
    (i : Nat) (u a b : String) :
    ((save_conversation db clock i u a b) u).map (fun d => d.history.length) =
        some 2 ∧
    ((save_conversation db clock i u a b) u).map
        (fun d => d.history.map HistEntry.input) = some [a, a] ∧
    ((save_conversation db clock i u a b) u).map
        (fun d => d.history.map HistEntry.response) = some [b, b] ∧
    ((save_conversation db clock i u a b) u).map
        (fun d => d.history.map HistEntry.timestamp) =
        some [clock i, clock (i + 1)] := by
  refine ⟨?_, ?_, ?_, ?_⟩ <;> simp [save_conversation, mkHistory]

/-- C6: a `save_conversation` write fully replaces the document stored for
`user` — afterwards it equals exactly the newly built document, whatever the
prior store state was (the statement holds for every `db`) — and leaves
every other user's document untouched. -/
theorem save_replaces_prior_document (db : Store) (clock : Nat → Nat)
    (i : Nat) (u a b : String) :
    (save_conversation db clock i u a b) u = some ⟨mkHistory a b clock i⟩ ∧
    (∀ v, v ≠ u → (save_conversation db clock i u a b) v = db v) := by
  constructor
  · simp [save_conversation]
  · intro v hv
    simp [save_conversation, hv]

theorem save_replaces_prior_document_witness :
    ((save_conversation
        (fun v => if v = "u" then some ⟨[⟨"old", "old", 7⟩]⟩ else none)
        (fun _ => 3) 0 "u" "a" "b") "u" =
      some ⟨mkHistory "a" "b" (fun _ => 3) 0⟩) ∧
    (∀ v, v ≠ "u" → (save_conversation
        (fun v => if v = "u" then some ⟨[⟨"old", "old", 7⟩]⟩ else none)
        (fun _ => 3) 0 "u" "a" "b") v =
      (fun v => if v = "u" then some ⟨[⟨"old", "old", 7⟩]⟩ else none) v) :=
  save_replaces_prior_document
    (fun v => if v = "u" then some ⟨[⟨"old", "old", 7⟩]⟩ else none)
    (fun _ => 3) 0 "u" "a" "b"

/-- C7 counterexample: the spec scenario's token `<@U0XXXXXXXX>` holds only
10 alphanumeric characters, the regex requires exactly 11, so the text is
not stripped and the normalized text is not `" hello"`. -/
theorem scenario_normalization_counterexample :
    stripMentions "<@U0XXXXXXXX> hello" ≠ " hello" := by
  decide

/-- C7 amended: the spec scenario's literal text is left unchanged (its
token has only 10 alphanumerics); with an 11-character token, e.g.
`<@U0XXXXXXXXX>`, the normalized text is `" hello"` and is what the agent
is invoked with. -/
theorem scenario_normalization_amended :
    stripMentions "<@U0XXXXXXXX> hello" = "<@U0XXXXXXXX> hello" ∧
    stripMentions "<@U0XXXXXXXXX> hello" = " hello" ∧
    handle_app_mention_events (fun _ => Except.ok "resp") true
        ⟨some "event_callback", none,
          some ⟨some "message", some "U123", some "<@U0XXXXXXXXX> hello"⟩⟩ =
      ([.agentRun " hello", .storeWrite "U123" " hello" "resp", .say "resp"],
        none) := by
  refine ⟨by decide, by decide, by decide⟩

/-- C8: a message event whose payload lacks `event.user` or `event.text`
fails with the malformed-event error before any side effect: the trace is
empty — no agent call and no store write. -/
theorem malformed_event_no_side_effects (agent : String → Except Err String)
    (dbOk : Bool) (body : Body) (ev : SlackEvent)
    (h1 : body.event = some ev) (h2 : ev.user = none ∨ ev.text = none) :
    handle_app_mention_events agent dbOk body = ([], some .malformedEvent) := by
  rcases h2 with h2 | h2
  · simp [handle_app_mention_events, h1, h2]
  · cases hu : ev.user with
    | none => simp [handle_app_mention_events, h1, hu]
    | some u => simp [handle_app_mention_events, h1, hu, h2]

theorem malformed_event_no_side_effects_witness :
    (Body.mk (some "event_callback") none
        (some ⟨some "message", none, some "hi"⟩)).event =
      some ⟨some "message", none, some "hi"⟩ ∧
    ((SlackEvent.mk (some "message") none (some "hi")).user = none ∨
      (SlackEvent.mk (some "message") none (some "hi")).text = none) ∧
    handle_app_mention_events (fun _ => Except.ok "r") true
        ⟨some "event_callback", none, some ⟨some "message", none, some "hi"⟩⟩ =
      ([], some .malformedEvent) :=
  ⟨rfl, Or.inl rfl,
    malformed_event_no_side_effects (fun _ => Except.ok "r") true
      ⟨some "event_callback", none, some ⟨some "message", none, some "hi"⟩⟩
      ⟨some "message", none, some "hi"⟩ rfl (Or.inl rfl)⟩

/-- C9: an `x-slack-retry-num` header that is present but empty is falsy in
Python, so the retry short circuit does not fire: the request is handed to
the bolt adapter (`handler.handle`) as a genuine event. -/
theorem empty_retry_header_dispatches (agent : String → Except Err String)
    (dbOk : Bool) (req : SlackRequest)
    (h1 : req.retryNum = some "")
    (h2 : req.body.type_ ≠ some "url_verification") :
    slack_bot agent dbOk req = handler_handle agent dbOk req.body := by
  simp [slack_bot, h1, h2, truthyStr]

theorem empty_retry_header_dispatches_witness :
    (SlackRequest.mk (some "")
        ⟨some "event_callback", none,
          some ⟨some "message", some "U1", some "hi"⟩⟩).retryNum = some "" ∧
    (SlackRequest.mk (some "")
        ⟨some "event_callback", none,
          some ⟨some "message", some "U1", some "hi"⟩⟩).body.type_ ≠
      some "url_verification" ∧
    slack_bot (fun _ => Except.ok "r") true
        ⟨some "", ⟨some "event_callback", none,
          some ⟨some "message", some "U1", some "hi"⟩⟩⟩ =
      handler_handle (fun _ => Except.ok "r") true
        ⟨some "event_callback", none,
          some ⟨some "message", some "U1", some "hi"⟩⟩ :=
  ⟨rfl, by decide,
    empty_retry_header_dispatches (fun _ => Except.ok "r") true
      ⟨some "", ⟨some "event_callback", none,
        some ⟨some "message", some "U1", some "hi"⟩⟩⟩ rfl (by decide)⟩

/-- C10: a body with `type == "url_verification"` but no `challenge` key
makes `body["challenge"]` raise an uncaught `KeyError`: `slack_bot` produces
no 200 response for such a handshake. -/
theorem url_verification_missing_challenge_keyerror
    (agent : String → Except Err String) (dbOk : Bool) (req : SlackRequest)
    (h1 : req.body.type_ = some "url_verification")
    (h2 : req.body.challenge = none) :
    slack_bot agent dbOk req = .error .keyError := by
  simp [slack_bot, h1, h2]

theorem url_verification_missing_challenge_keyerror_witness :
    (Body.mk (some "url_verification") none none).type_ =
        some "url_verification" ∧
    (Body.mk (some "url_verification") none none).challenge = none ∧
    slack_bot (fun _ => Except.ok "r") true
        ⟨none, ⟨some "url_verification", none, none⟩⟩ = .error .keyError :=
  ⟨rfl, rfl,
    url_verification_missing_challenge_keyerror (fun _ => Except.ok "r") true
      ⟨none, ⟨some "url_verification", none, none⟩⟩ rfl rfl⟩
